import Mathlib

/-!
Verification of the tinywasm runtime claims against a shallow embedding of the
source. Rust machine integers and floats are represented by their bit patterns
as natural numbers; fallible code returns Except or Option (Option.none models
a Rust panic such as a failed assert or expect); mutation of a borrowed value
is explicit state passing, with the updated value returned alongside the result.
Parts of the repository whose defining file is absent (the interpreter executor
and stack internals, the types-crate enums) are modelled from the spec and
marked as such in their doc comments.
-/

set_option maxHeartbeats 1000000

namespace TinyWasm

/-- Value types (src/crates/types/src/value.rs, enum ValType). The source
names of the last two variants are RefFunc and RefExtern; the latter is
shortened to RefExt here. -/
inductive ValType where
  | I32
  | I64
  | F32
  | F64
  | V128
  | RefFunc
  | RefExt
deriving DecidableEq, Repr

/-- A WebAssembly value (src/crates/types/src/value.rs, enum WasmValue).
Each numeric payload is the Rust value viewed as its bit pattern, so Rust
equality of payloads coincides with equality of these naturals, and
f32.to_bits and f64.to_bits are the identity on the payload. The source
RefExtern variant is shortened to RefExt. -/
inductive WasmValue where
  | I32 (bits : Nat)
  | I64 (bits : Nat)
  | F32 (bits : Nat)
  | F64 (bits : Nat)
  | V128 (bits : Nat)
  | RefExt (addr : Option Nat)
  | RefFunc (addr : Option Nat)
deriving DecidableEq, Repr

/-- Rust f32.is_nan on the bit pattern: exponent bits all ones and a
nonzero mantissa. -/
def isNan32 (bits : Nat) : Bool :=
  (((bits >>> 23) &&& 255) == 255) && ((bits &&& 8388607) != 0)

/-- Rust f64.is_nan on the bit pattern: exponent bits all ones and a
nonzero mantissa. -/
def isNan64 (bits : Nat) : Bool :=
  (((bits >>> 52) &&& 2047) == 2047) && ((bits &&& 4503599627370495) != 0)

/-- WasmValue::val_type (src/crates/types/src/value.rs). -/
def WasmValue.val_type : WasmValue → ValType
  | .I32 _ => .I32
  | .I64 _ => .I64
  | .F32 _ => .F32
  | .F64 _ => .F64
  | .V128 _ => .V128
  | .RefExt _ => .RefExt
  | .RefFunc _ => .RefFunc

/-- WasmValue::eq_loose (src/crates/types/src/value.rs lines 134-158): equal
integers and references compare equal, floats compare equal when both are NaN
or their bit patterns match, everything else (including two V128 values, which
have no arm in the source match) is false. -/
def WasmValue.eq_loose : WasmValue → WasmValue → Bool
  | .I32 a, .I32 b => a == b
  | .I64 a, .I64 b => a == b
  | .RefExt a, .RefExt b => a == b
  | .RefFunc a, .RefFunc b => a == b
  | .F32 a, .F32 b => if isNan32 a && isNan32 b then true else a == b
  | .F64 a, .F64 b => if isNan64 a && isNan64 b then true else a == b
  | _, _ => false

/-- C7: for floats of one width, eq_loose is true exactly when both are NaN or
the bit patterns are equal; integers and references use ordinary equality; and
values of different kinds are never loosely equal. -/
theorem c7_eq_loose_characterization :
    (∀ a b : Nat, (WasmValue.F32 a).eq_loose (WasmValue.F32 b) = true ↔
      ((isNan32 a = true ∧ isNan32 b = true) ∨ a = b))
    ∧ (∀ a b : Nat, (WasmValue.F64 a).eq_loose (WasmValue.F64 b) = true ↔
      ((isNan64 a = true ∧ isNan64 b = true) ∨ a = b))
    ∧ (∀ a b : Nat, (WasmValue.I32 a).eq_loose (WasmValue.I32 b) = true ↔ a = b)
    ∧ (∀ a b : Nat, (WasmValue.I64 a).eq_loose (WasmValue.I64 b) = true ↔ a = b)
    ∧ (∀ a b : Option Nat,
        (WasmValue.RefFunc a).eq_loose (WasmValue.RefFunc b) = true ↔ a = b)
    ∧ (∀ a b : Option Nat,
        (WasmValue.RefExt a).eq_loose (WasmValue.RefExt b) = true ↔ a = b)
    ∧ (∀ v w : WasmValue, v.val_type ≠ w.val_type → v.eq_loose w = false) := by
  refine ⟨?_, ?_, ?_, ?_, ?_, ?_, ?_⟩
  · intro a b
    by_cases h1 : isNan32 a = true <;> by_cases h2 : isNan32 b = true <;>
      simp [WasmValue.eq_loose, h1, h2]
  · intro a b
    by_cases h1 : isNan64 a = true <;> by_cases h2 : isNan64 b = true <;>
      simp [WasmValue.eq_loose, h1, h2]
  · intro a b; simp [WasmValue.eq_loose]
  · intro a b; simp [WasmValue.eq_loose]
  · intro a b; simp [WasmValue.eq_loose]
  · intro a b; simp [WasmValue.eq_loose]
  · intro v w h
    cases v <;> cases w <;> simp_all [WasmValue.val_type, WasmValue.eq_loose]

/-- C7 witness: the characterization applied to concrete values of different
kinds. -/
theorem c7_eq_loose_witness :
    (WasmValue.I32 5).eq_loose (WasmValue.I64 5) = false :=
  c7_eq_loose_characterization.2.2.2.2.2.2 (WasmValue.I32 5) (WasmValue.I64 5)
    (by decide)

/-- A function type (params and results). The FuncType structure lives in the
types crate whose file is not under src/; modelled from the spec, section 4.5:
a signature is the parameter and result value-type tuples. -/
structure FuncType where
  params : List ValType
  results : List ValType
deriving DecidableEq, Repr

/-- Modelled from the spec: yielded values and resume arguments are
type-erased owned boxes (spec section 9, heterogeneous host payloads); the
YieldedValue alias in the types crate is not under src/. Each box is an
abstract token. -/
abbrev YieldedValue : Type := Option Nat

/-- Modelled from the spec: the type-erased resume argument (spec sections
4.2 and 9); the ResumeArgument alias in the types crate is not under src/. -/
abbrev ResumeArgument : Type := Option Nat

/-- SuspendReason (src/crates/tinywasm/src/coro.rs lines 16-34): why
execution suspended. -/
inductive SuspendReason where
  | Yield (v : YieldedValue)
  | SuspendedEpoch
  | SuspendedCallback
  | SuspendedFlag
deriving DecidableEq

/-- Trap (src/crates/tinywasm/src/error.rs lines 93-148). -/
inductive Trap where
  | Unreachable
  | MemoryOutOfBounds (offset len max : Nat)
  | TableOutOfBounds (offset len max : Nat)
  | DivisionByZero
  | InvalidConversionToInt
  | IntegerOverflow
  | CallStackOverflow
  | UndefinedElement (index : Nat)
  | UninitializedElement (index : Nat)
  | IndirectCallTypeMismatch (expected actual : FuncType)
deriving DecidableEq, Repr

/-- LinkingError (src/crates/tinywasm/src/error.rs lines 61-77). -/
inductive LinkingError where
  | UnknownImport (module name : String)
  | IncompatibleImportType (module name : String)
deriving DecidableEq, Repr

/-- Error (src/crates/tinywasm/src/error.rs lines 13-57). The Io and
ParseError variants are feature-gated wrappers around external types and are
not needed by any claim; UnexpectedSuspend carries the SuspendReason itself,
as in the source. -/
inductive Error where
  | Trap (t : Trap)
  | Linker (l : LinkingError)
  | UnsupportedFeature (s : String)
  | Other (s : String)
  | InvalidHostFnReturn (expected : FuncType) (actual : List WasmValue)
  | InvalidLabelType
  | InvalidStore
  | InvalidResumeArgument
  | InvalidResume
  | UnexpectedSuspend (r : SuspendReason)
deriving DecidableEq

/-- PotentialCoroCallResult (src/crates/tinywasm/src/coro.rs lines 39-47):
result of a call that might pause. -/
inductive PotentialCoroCallResult (R S : Type) where
  | Return (r : R)
  | Suspended (reason : SuspendReason) (state : S)

/-- CoroStateResumeResult (src/crates/tinywasm/src/coro.rs lines 52-60):
result of resuming, the state lives in self. -/
inductive CoroStateResumeResult (R : Type) where
  | Return (r : R)
  | Suspended (reason : SuspendReason)

/-- PotentialCoroCallResult::suspend_to_err (src/crates/tinywasm/src/coro.rs
lines 65-70): a suspension becomes the UnexpectedSuspend error carrying the
suspend reason (the source conversion r.into() is the identity, since the
UnexpectedSuspend variant of Error holds a SuspendReason). -/
def PotentialCoroCallResult.suspend_to_err :
    PotentialCoroCallResult R S → Except Error R
  | .Return r => .ok r
  | .Suspended r _ => .error (.UnexpectedSuspend r)

/-- Modelled from the spec: the interpreter-internal untyped value (the file
src/crates/tinywasm/src/interpreter/values.rs is not under src/). Constructor
shapes follow the uses in Store::eval_const: raw 32, 64 or 128 bit payloads
and an optional reference address. -/
inductive TinyWasmValue where
  | Value32 (bits : Nat)
  | Value64 (bits : Nat)
  | Value128 (bits : Nat)
  | ValueRef (addr : Option Nat)
deriving DecidableEq, Repr

/-- Modelled from the spec: a global type is a value type plus a mutability
flag (spec section 3, global instance); the GlobalType structure in the types
crate is not under src/. -/
structure GlobalType where
  ty : ValType
  mutable : Bool
deriving DecidableEq, Repr

/-- Modelled from the spec: a global instance holds its type, its current
value and the owning module instance (spec section 3; the file
src/crates/tinywasm/src/store/global.rs is not under src/). -/
structure GlobalInstance where
  ty : GlobalType
  value : TinyWasmValue
  owner : Nat
deriving DecidableEq, Repr

/-- Modelled from the spec: memory addressing width (spec section 3: page
size is 64 KiB, only 32-bit addressing is supported); the MemoryArch enum in
the types crate is not under src/. -/
inductive MemoryArch where
  | I32
  | I64
deriving DecidableEq, Repr

/-- Modelled from the spec: a memory type records its addressing
architecture, initial page count and optional maximum page count (spec
section 3); the MemoryType structure in the types crate is not under src/.
The source accessor mem.arch() is field access here. -/
structure MemoryType where
  arch : MemoryArch
  initial : Nat
  max_pages : Option Nat
deriving DecidableEq, Repr

/-- Modelled from the spec: a memory instance as stored in the pool, keeping
its type and owning module instance (spec section 3; the file
src/crates/tinywasm/src/store/memory.rs is not under src/). The byte buffer
plays no role in any claim and is omitted. -/
structure MemoryInstance where
  kind : MemoryType
  owner : Nat
deriving DecidableEq, Repr

/-- MemoryInstance::new as used by Store::init_memories and Store::add_mem. -/
def MemoryInstance.new (kind : MemoryType) (owner : Nat) : MemoryInstance :=
  { kind := kind, owner := owner }

/-- Modelled from the spec: a module instance is a handle carrying an
instance id plus per-instance address translation tables (spec section 3);
the file defining ModuleInstance is not under src/. Only the tables used by
the claims are kept. The source accessor instance.id() is field access. -/
structure ModuleInstance where
  id : Nat
  func_addrs : List Nat
  global_addrs : List Nat
deriving DecidableEq, Repr

/-- StoreData (src/crates/tinywasm/src/store/mod.rs lines 104-111), restricted
to the pools that the claims touch (globals and memories); funcs, tables,
elements and datas are insertion-only lists of the same shape and are
omitted. -/
structure StoreData where
  globals : List GlobalInstance
  memories : List MemoryInstance
deriving DecidableEq, Repr

/-- Store (src/crates/tinywasm/src/store/mod.rs lines 31-39): the
process-unique id, the module instance registry and the pools. The runtime
selector and suspend conditions carry no data relevant to the claims. -/
structure Store where
  id : Nat
  module_instances : List ModuleInstance
  data : StoreData
deriving DecidableEq, Repr

/-- Store::default (src/crates/tinywasm/src/store/mod.rs lines 86-97). The
process-global atomic STORE_ID counter is passed and returned explicitly:
the argument is the current counter value and the second component is the
counter after the fetch_add. -/
def Store.default_ (next : Nat) : Store × Nat :=
  ({ id := next, module_instances := [], data := { globals := [], memories := [] } }, next + 1)

/-- Store::id (src/crates/tinywasm/src/store/mod.rs lines 114-116). -/
def Store.id_ (store : Store) : Nat := store.id

/-- Store::next_module_instance_idx (src/crates/tinywasm/src/store/mod.rs
lines 119-121). -/
def Store.next_module_instance_idx (store : Store) : Nat :=
  store.module_instances.length

/-- Store::add_instance (src/crates/tinywasm/src/store/mod.rs lines 123-126):
asserts that the id of the new instance equals the current registry length,
then pushes. The failed assert (a Rust panic) is Option.none. -/
def Store.add_instance (store : Store) (inst : ModuleInstance) : Option Store :=
  if inst.id = store.module_instances.length then
    some { store with module_instances := store.module_instances ++ [inst] }
  else
    none

/-- Store::get_module_instance (src/crates/tinywasm/src/store/mod.rs lines
63-66). -/
def Store.get_module_instance (store : Store) (addr : Nat) :
    Option ModuleInstance :=
  store.module_instances[addr]?

/-- Modelled from the spec: the ConstInstruction enum lives in the types
crate, which is not under src/. Variants are reconstructed from the match
arms of Store::eval_const and the restricted set in spec section 4.4; the
Extended constructor stands for the remaining (extended-const) instructions,
which only the catch-all arm of the source match can reach. Numeric payloads
are bit patterns. -/
inductive ConstInstruction where
  | I32Const (bits : Nat)
  | I64Const (bits : Nat)
  | F32Const (bits : Nat)
  | F64Const (bits : Nat)
  | GlobalGet (idx : Nat)
  | RefFunc (idx : Option Nat)
  | RefExt (idx : Option Nat)
  | Extended (opcode : Nat)
deriving DecidableEq, Repr

/-- Store::eval_const (src/crates/tinywasm/src/store/mod.rs lines 442-474).
The arms appear in source order; the source RefExtern(None) arm is RefExt
none here. A GlobalGet whose module-local index translates to an address
missing from the store hits an expect (a panic), which is Option.none; every
other outcome is some. -/
def Store.eval_const (store : Store) (const_instr : ConstInstruction)
    (module_global_addrs : List Nat) (module_func_addrs : List Nat) :
    Option (Except Error TinyWasmValue) :=
  match const_instr with
  | .F32Const f => some (.ok (.Value32 f))
  | .F64Const f => some (.ok (.Value64 f))
  | .I32Const i => some (.ok (.Value32 i))
  | .I64Const i => some (.ok (.Value64 i))
  | .GlobalGet addr =>
    match module_global_addrs[addr]? with
    | none => some (.error (.Other ("global " ++ toString addr ++
        " not found. This should have been caught by the validator")))
    | some addr2 =>
      match store.data.globals[addr2]? with
      | none => none
      | some g => some (.ok g.value)
  | .RefFunc none => some (.ok (.ValueRef none))
  | .RefExt none => some (.ok (.ValueRef none))
  | .RefFunc (some idx) =>
    match module_func_addrs[idx]? with
    | none => some (.error (.Other ("function " ++ toString idx ++
        " not found. This should have been caught by the validator")))
    | some a => some (.ok (.ValueRef (some a)))
  | _ => some (.error (.Other "unsupported const instruction"))

/-- Store::add_mem (src/crates/tinywasm/src/store/mod.rs lines 417-423):
reject 64-bit memories, otherwise push the instance and return its address.
The updated store is returned alongside the result. -/
def Store.add_mem (store : Store) (mem : MemoryType) (idx : Nat) :
    (Except Error Nat) × Store :=
  if mem.arch = .I64 then
    (.error (.UnsupportedFeature "64-bit memories"), store)
  else
    ((.ok ((store.data.memories ++ [MemoryInstance.new mem idx]).length - 1)),
     { store with data := { globals := store.data.globals,
                            memories := store.data.memories ++ [MemoryInstance.new mem idx] } })

/-- The loop body of Store::init_memories: addresses are assigned from the
pool length at each push, which equals the source i + mem_count. -/
def initMemoriesLoop (idx : Nat) (store : Store) :
    List MemoryType → (Except Error (List Nat)) × Store
  | [] => (.ok [], store)
  | mem :: rest =>
    if mem.arch = .I64 then
      (.error (.UnsupportedFeature "64-bit memories"), store)
    else
      match initMemoriesLoop idx
          { store with data := { globals := store.data.globals,
                                 memories := store.data.memories ++ [MemoryInstance.new mem idx] } }
          rest with
      | (.ok addrs, s3) => (.ok (store.data.memories.length :: addrs), s3)
      | (.error e, s3) => (.error e, s3)

/-- Store::init_memories (src/crates/tinywasm/src/store/mod.rs lines
251-262): add each declared memory in order, rejecting the first with 64-bit
addressing; memories pushed before the rejection stay in the store, exactly
as with the source early return out of the loop over a mutably borrowed
store. -/
def Store.init_memories (store : Store) (memories : List MemoryType)
    (idx : Nat) : (Except Error (List Nat)) × Store :=
  initMemoriesLoop idx store memories

/-- Modelled from the spec: a call frame holds the locals vector, the program
counter and the label-stack base (spec section 4.1; the file
src/crates/tinywasm/src/interpreter/stack.rs is not under src/). The shared
reference to the function body is an address here. -/
structure CallFrame where
  func_addr : Nat
  locals : List TinyWasmValue
  pc : Nat
  label_base : Nat
deriving DecidableEq, Repr

/-- Modelled from the spec: a label records the branch target, the block
arity and the value-stack height at entry (spec section 4.1). -/
structure Label where
  target_pc : Nat
  arity : Nat
  entry_height : Nat
deriving DecidableEq, Repr

/-- Modelled from the spec: the three parallel stacks of one invocation
(spec section 4.1; the stack module is not under src/). The value stack grows
towards the end of the list. -/
structure Stack where
  values : List TinyWasmValue
  labels : List Label
  frames : List CallFrame
deriving DecidableEq, Repr

/-- Modelled from the spec: attach a declared value type to an untyped stack
value, as the typed pop helpers of the missing values module do (spec section
4.1). A width mismatch, impossible in validated code, falls back to the
default value of the type. -/
def TinyWasmValue.attach (t : ValType) (v : TinyWasmValue) : WasmValue :=
  match t, v with
  | .I32, .Value32 b => .I32 b
  | .F32, .Value32 b => .F32 b
  | .I64, .Value64 b => .I64 b
  | .F64, .Value64 b => .F64 b
  | .V128, .Value128 b => .V128 b
  | .RefFunc, .ValueRef a => .RefFunc a
  | .RefExt, .ValueRef a => .RefExt a
  | .I32, _ => .I32 0
  | .I64, _ => .I64 0
  | .F32, _ => .F32 0
  | .F64, _ => .F64 0
  | .V128, _ => .V128 0
  | .RefFunc, _ => .RefFunc none
  | .RefExt, _ => .RefExt none

/-- Modelled from the spec: pop_results returns the top values of the value
stack in declared order, typed by the declared result types (spec section
4.1). -/
def pop_results (types : List ValType) (values : List TinyWasmValue) :
    List WasmValue :=
  ((values.drop (values.length - types.length)).zip types).map
    fun p => TinyWasmValue.attach p.2 p.1

/-- SuspendedHostCoroState (named in src/crates/tinywasm/src/func.rs and
src/crates/tinywasm/src/interpreter/mod.rs; its declaration in
interpreter/executor.rs is not under src/): the parked host coroutine box,
modelled as an abstract token, plus the address of the function that created
it. Modelled from the spec, sections 4.2 and 4.3. -/
structure SuspendedHostCoroState where
  coro_state : Nat
  coro_orig_function : Nat
deriving DecidableEq, Repr

/-- SuspendedRuntimeBody (src/crates/tinywasm/src/interpreter/mod.rs lines
26-30): the pending host coroutine, the module instance and the paused call
frame. -/
structure SuspendedRuntimeBody where
  suspended_host_coro : Option SuspendedHostCoroState
  module : ModuleInstance
  frame : CallFrame
deriving DecidableEq, Repr

/-- SuspendedRuntime (src/crates/tinywasm/src/interpreter/mod.rs lines
32-36): some body while suspended, none once finished. -/
structure SuspendedRuntime where
  body : Option (SuspendedRuntimeBody × Stack)
deriving DecidableEq, Repr

/-- ExecOutcome (declared in interpreter/executor.rs, not under src/; its two
shapes Return(()) and Suspended(reason) are fixed by the match in
SuspendedRuntime::resume). Modelled from the spec, section 4.2. -/
inductive ExecOutcome where
  | Return
  | Suspended (reason : SuspendReason)
deriving DecidableEq

/-- The behaviour of Executor::resume (interpreter/executor.rs, not under
src/), abstracted: from the reassembled executor state (body, stack, store)
and the resume argument it produces a result together with the executor state
left behind, which unmake_exec reads back. -/
abbrev ExecResumeFn : Type :=
  SuspendedRuntimeBody → Stack → Store → ResumeArgument →
    (Except Error ExecOutcome) × SuspendedRuntimeBody × Stack × Store

/-- SuspendedRuntime::resume (src/crates/tinywasm/src/interpreter/mod.rs
lines 51-81): take the body (none means already finished, InvalidResume);
run the executor; on error or further suspension put the (possibly updated)
body back; on return leave the body empty and hand the stack out. -/
def SuspendedRuntime.resume (execResume : ExecResumeFn)
    (self : SuspendedRuntime) (store : Store) (arg : ResumeArgument) :
    (Except Error (CoroStateResumeResult Stack)) × SuspendedRuntime × Store :=
  match self.body with
  | none => (.error .InvalidResume, self, store)
  | some (body, stack) =>
    match execResume body stack store arg with
    | (.error e, body2, stack2, store2) =>
      (.error e, ⟨some (body2, stack2)⟩, store2)
    | (.ok .Return, _, stack2, store2) =>
      (.ok (.Return stack2), ⟨none⟩, store2)
    | (.ok (.Suspended r), body2, stack2, store2) =>
      (.ok (.Suspended r), ⟨some (body2, stack2)⟩, store2)

/-- SuspendedWasmFunc (src/crates/tinywasm/src/func.rs lines 163-176): a
suspended runtime plus the declared result types. -/
structure SuspendedWasmFunc where
  runtime : SuspendedRuntime
  result_types : List ValType
deriving DecidableEq

/-- SuspendedWasmFunc::resume (src/crates/tinywasm/src/func.rs lines
168-176): resume the runtime and pop the declared results off the returned
stack. -/
def SuspendedWasmFunc.resume (execResume : ExecResumeFn)
    (self : SuspendedWasmFunc) (store : Store) (arg : ResumeArgument) :
    (Except Error (CoroStateResumeResult (List WasmValue)))
      × SuspendedWasmFunc × Store :=
  match SuspendedRuntime.resume execResume self.runtime store arg with
  | (.error e, rt2, store2) =>
    (.error e, { self with runtime := rt2 }, store2)
  | (.ok (.Return stack), rt2, store2) =>
    (.ok (.Return (pop_results self.result_types stack.values)),
      { self with runtime := rt2 }, store2)
  | (.ok (.Suspended r), rt2, store2) =>
    (.ok (.Suspended r), { self with runtime := rt2 }, store2)

/-- The behaviour of the parked host coroutine box (a host-supplied
CoroState implementation, external to the repository), abstracted: from the
token, the module address of the calling context, the store and the resume
argument it produces a result, the updated token and the updated store. -/
abbrev HostResumeFn : Type :=
  SuspendedHostCoroState → Nat → Store → ResumeArgument →
    (Except Error (CoroStateResumeResult (List WasmValue)))
      × SuspendedHostCoroState × Store

/-- SuspendedFuncInner (src/crates/tinywasm/src/func.rs lines 180-183). -/
inductive SuspendedFuncInner where
  | Wasm (w : SuspendedWasmFunc)
  | Host (h : SuspendedHostCoroState)
deriving DecidableEq

/-- SuspendedFunc (src/crates/tinywasm/src/func.rs lines 186-191): the
suspended function state plus the originating module address and store id. -/
structure SuspendedFunc where
  func : SuspendedFuncInner
  module_addr : Nat
  store_id : Nat
deriving DecidableEq

/-- SuspendedFunc::resume (src/crates/tinywasm/src/func.rs lines 193-209):
reject a store whose id differs from the remembered store_id with
InvalidStore before touching anything, otherwise dispatch to the wasm or
host resume path. -/
def SuspendedFunc.resume (execResume : ExecResumeFn)
    (hostResume : HostResumeFn) (self : SuspendedFunc) (store : Store)
    (arg : ResumeArgument) :
    (Except Error (CoroStateResumeResult (List WasmValue)))
      × SuspendedFunc × Store :=
  if store.id ≠ self.store_id then
    (.error .InvalidStore, self, store)
  else
    match self.func with
    | .Wasm w =>
      match SuspendedWasmFunc.resume execResume w store arg with
      | (r, w2, store2) => (r, { self with func := .Wasm w2 }, store2)
    | .Host h =>
      match hostResume h self.module_addr store arg with
      | (r, h2, store2) => (r, { self with func := .Host h2 }, store2)

/-- HitTheFloor (src/crates/tinywasm/src/module.rs line 89): the instance
being built plus the suspended start function. -/
structure HitTheFloor where
  inst : ModuleInstance
  func : SuspendedFunc
deriving DecidableEq

/-- IncompleteModule (src/crates/tinywasm/src/module.rs line 86): the
coroutine state returned by Module::instantiate_coro when the start function
suspends; none once finished. -/
structure IncompleteModule where
  body : Option HitTheFloor
deriving DecidableEq

/-- IncompleteModule::resume (src/crates/tinywasm/src/module.rs lines
91-115): take the body (none means already finished, InvalidResume); resume
the suspended start function; on error or further suspension put the
(possibly updated) body back; on return leave the body empty and hand the
finished module instance out. -/
def IncompleteModule.resume (execResume : ExecResumeFn)
    (hostResume : HostResumeFn) (self : IncompleteModule) (store : Store)
    (arg : ResumeArgument) :
    (Except Error (CoroStateResumeResult ModuleInstance))
      × IncompleteModule × Store :=
  match self.body with
  | none => (.error .InvalidResume, self, store)
  | some body =>
    match SuspendedFunc.resume execResume hostResume body.func store arg with
    | (.error e, f2, store2) =>
      (.error e, ⟨some { body with func := f2 }⟩, store2)
    | (.ok (.Return _), _, store2) =>
      (.ok (.Return body.inst), ⟨none⟩, store2)
    | (.ok (.Suspended r), f2, store2) =>
      (.ok (.Suspended r), ⟨some { body with func := f2 }⟩, store2)

/-- FuncHandle::call_coro (src/crates/tinywasm/src/func.rs lines 33-59),
with everything past the two argument checks (the store lookup, frame
construction and executor run starting at line 61) abstracted as the
function rest, which receives the store untouched by the checks. The
argument-count check and the per-position type check return their errors
before rest is consulted, exactly as the source early-returns before any
frame exists. -/
def FuncHandle.call_coro {O : Type}
    (rest : Store → (Except Error O) × Store) (ty : FuncType)
    (params : List WasmValue) (store : Store) : (Except Error O) × Store :=
  if ty.params.length ≠ params.length then
    (.error (.Other ("param count mismatch: expected " ++
      toString ty.params.length ++ ", got " ++ toString params.length)), store)
  else if ¬ ((ty.params.zip params).all fun tp => decide (tp.1 = tp.2.val_type)) then
    (.error (.Other "Type mismatch"), store)
  else
    rest store

/-- FuncHandle::call (src/crates/tinywasm/src/func.rs lines 27-29): run
call_coro (abstracted here as the function call_coro_fn, covering lines
33-110) and turn a suspension into the UnexpectedSuspend error via
PotentialCoroCallResult::suspend_to_err. -/
def FuncHandle.call {S : Type}
    (call_coro_fn : Store → List WasmValue →
      (Except Error (PotentialCoroCallResult (List WasmValue) S)) × Store)
    (store : Store) (params : List WasmValue) :
    (Except Error (List WasmValue)) × Store :=
  match call_coro_fn store params with
  | (.error e, store2) => (.error e, store2)
  | (.ok outcome, store2) => (outcome.suspend_to_err, store2)

/-- Modelled from the spec: the SimdInstruction enum lives in the types
crate, which is not under src/. The six bitwise operators named by the match
arms of exec_next_simd are kept; every other SIMD instruction, reachable
only through the catch-all arm, is collapsed into the Other constructor with
its opcode. -/
inductive SimdInstruction where
  | V128Not
  | V128And
  | V128AndNot
  | V128Or
  | V128Xor
  | V128Bitselect
  | Other (opcode : Nat)
deriving DecidableEq, Repr

/-- Value128, the 128-bit vector payload, as a bit pattern. -/
abbrev Value128 : Type := Nat

/-- Bitwise complement on a 128-bit pattern. -/
def v128not (a : Value128) : Value128 :=
  Nat.xor a (2 ^ 128 - 1)

/-- The executor state visible to exec_next_simd: the value stack (top at the
head, push is cons) and the rest of the executor, untouched by the SIMD
dispatcher and kept abstract. -/
structure SimdExecState (A : Type) where
  values : List Value128
  other : A
deriving DecidableEq

/-- Modelled from the spec: the fused pop-op-push helper replace_top_same of
the missing values module (spec section 4.1). An underflow, impossible in
validated code, is a panic (none). -/
def replace_top_same {A : Type} (f : Value128 → Except Error Value128)
    (e : SimdExecState A) : Option (Except Error (SimdExecState A)) :=
  match e.values with
  | [] => none
  | a :: rest =>
    match f a with
    | .error err => some (.error err)
    | .ok b => some (.ok { e with values := b :: rest })

/-- Modelled from the spec: the fused two-operand helper calculate_same of
the missing values module (spec section 4.1); pops b then a, pushes f a b. -/
def calculate_same {A : Type}
    (f : Value128 → Value128 → Except Error Value128)
    (e : SimdExecState A) : Option (Except Error (SimdExecState A)) :=
  match e.values with
  | b :: a :: rest =>
    match f a b with
    | .error err => some (.error err)
    | .ok c => some (.ok { e with values := c :: rest })
  | _ => none

/-- exec_next_simd (src/crates/tinywasm/src/interpreter/simd.rs lines
10-29): the six bitwise V128 operators update the value stack; every other
SIMD instruction falls into the catch-all arm, which does nothing and
returns Ok. The outer Option is a panic (stack underflow inside a helper),
impossible in validated code. -/
def exec_next_simd {A : Type} (e : SimdExecState A) (op : SimdInstruction) :
    Option (Except Error (SimdExecState A)) :=
  match op with
  | .V128Not => replace_top_same (fun a => .ok (v128not a)) e
  | .V128And => calculate_same (fun a b => .ok (Nat.land a b)) e
  | .V128AndNot => calculate_same (fun a b => .ok (Nat.land a (v128not b))) e
  | .V128Or => calculate_same (fun a b => .ok (Nat.lor a b)) e
  | .V128Xor => calculate_same (fun a b => .ok (Nat.xor a b)) e
  | .V128Bitselect =>
    match e.values with
    | c :: rest =>
      calculate_same
        (fun a b => .ok (Nat.lor (Nat.land a b) (Nat.land (v128not a) c)))
        { e with values := rest }
    | [] => none
  | _ => some (.ok e)

/-- C6: every SIMD instruction other than the six bitwise V128 operators is
silently skipped by exec_next_simd: it returns Ok and the executor state
(value stack and all) is unchanged. -/
theorem c6_simd_other_silently_skipped {A : Type} :
    ∀ (e : SimdExecState A) (opcode : Nat),
      exec_next_simd e (.Other opcode) = some (.ok e) := by
  intro e opcode
  rfl

/-- C3: when the underlying execution suspends with any reason, the
non-coroutine facade FuncHandle::call returns the UnexpectedSuspend error
carrying that suspend reason, not results or a resumable handle. -/
theorem c3_call_unexpected_suspend {S : Type} :
    ∀ (call_coro_fn : Store → List WasmValue →
        (Except Error (PotentialCoroCallResult (List WasmValue) S)) × Store)
      (store : Store) (params : List WasmValue) (r : SuspendReason) (s : S)
      (store2 : Store),
      call_coro_fn store params = (.ok (.Suspended r s), store2) →
      FuncHandle.call call_coro_fn store params =
        (.error (.UnexpectedSuspend r), store2) := by
  intro cc store params r s store2 h
  simp [FuncHandle.call, h, PotentialCoroCallResult.suspend_to_err]

/-- C3 witness: a concrete suspending call_coro makes call return
UnexpectedSuspend. -/
theorem c3_call_unexpected_suspend_witness :
    FuncHandle.call (S := Unit)
      (fun store _ => (.ok (.Suspended .SuspendedFlag ()), store))
      (Store.default_ 0).1 [] =
      (.error (.UnexpectedSuspend .SuspendedFlag), (Store.default_ 0).1) :=
  c3_call_unexpected_suspend _ _ _ _ () _ rfl

/-- C4: a call through a function handle fails before anything else runs
(rest is never consulted and the store is returned untouched) with the exact
message built from the expected and got counts when the argument count is
wrong, and with the message Type mismatch when some argument type differs
from the declared parameter type. -/
theorem c4_argument_checks {O : Type} :
    (∀ (rest : Store → (Except Error O) × Store) (ty : FuncType)
        (params : List WasmValue) (store : Store),
      ty.params.length ≠ params.length →
      FuncHandle.call_coro rest ty params store =
        (.error (.Other ("param count mismatch: expected " ++
          toString ty.params.length ++ ", got " ++ toString params.length)),
         store))
    ∧ (∀ (rest : Store → (Except Error O) × Store) (ty : FuncType)
        (params : List WasmValue) (store : Store),
      ty.params.length = params.length →
      (∃ tp ∈ ty.params.zip params, tp.1 ≠ tp.2.val_type) →
      FuncHandle.call_coro rest ty params store =
        (.error (.Other "Type mismatch"), store)) := by
  constructor
  · intro rest ty params store h
    simp [FuncHandle.call_coro, h]
  · intro rest ty params store hlen hbad
    have hall : ((ty.params.zip params).all
        fun tp => decide (tp.1 = tp.2.val_type)) = false := by
      obtain ⟨tp, htp, hne⟩ := hbad
      refine List.all_eq_false.mpr ⟨tp, htp, ?_⟩
      simp [hne]
    simp [FuncHandle.call_coro, hlen, hall]

/-- C4 witness: both checks fire on concrete inputs, leaving the default
store untouched. -/
theorem c4_argument_checks_witness :
    FuncHandle.call_coro (O := Unit) (fun s => (.ok (), s))
        { params := [.I32], results := [] } [] (Store.default_ 0).1 =
      (.error (.Other ("param count mismatch: expected " ++
        toString (List.length [ValType.I32]) ++ ", got " ++
        toString (List.length ([] : List WasmValue)))), (Store.default_ 0).1)
    ∧ FuncHandle.call_coro (O := Unit) (fun s => (.ok (), s))
        { params := [.I32], results := [] } [.I64 0] (Store.default_ 0).1 =
      (.error (.Other "Type mismatch"), (Store.default_ 0).1) :=
  ⟨c4_argument_checks.1 _ _ _ _ (by decide),
   c4_argument_checks.2 _ _ _ _ (by decide)
     ⟨(ValType.I32, WasmValue.I64 0), by decide, by decide⟩⟩

/-- C1: stores created from the process counter get that counter value as
their id and bump the counter, so distinct creations get distinct ids; and a
suspended function handle remembering the id of store A, resumed against any
store B whose id differs, yields InvalidStore with the handle and store B
returned untouched (store A is not even an input of the failed resume). -/
theorem c1_cross_store_resume_rejected :
    (∀ n : Nat, (Store.default_ n).1.id = n ∧ (Store.default_ n).2 = n + 1)
    ∧ (∀ (execResume : ExecResumeFn) (hostResume : HostResumeFn)
        (sf : SuspendedFunc) (A B : Store) (arg : ResumeArgument),
      sf.store_id = A.id → B.id ≠ A.id →
      SuspendedFunc.resume execResume hostResume sf B arg =
        (.error .InvalidStore, sf, B)) := by
  constructor
  · intro n
    exact ⟨rfl, rfl⟩
  · intro er hr sf A B arg hS hB
    have hne : B.id ≠ sf.store_id := by
      rw [hS]
      exact hB
    unfold SuspendedFunc.resume
    rw [if_pos hne]

/-- C1 witness: two consecutively created stores, the handle made on the
first, resumed against the second. -/
theorem c1_cross_store_resume_rejected_witness :
    SuspendedFunc.resume
      (fun b s st _ => (.error .InvalidResume, b, s, st))
      (fun h _ st _ => (.error .InvalidResume, h, st))
      { func := .Host { coro_state := 0, coro_orig_function := 0 },
        module_addr := 0, store_id := 0 }
      (Store.default_ (Store.default_ 0).2).1 none =
      (.error .InvalidStore,
       { func := .Host { coro_state := 0, coro_orig_function := 0 },
         module_addr := 0, store_id := 0 },
       (Store.default_ (Store.default_ 0).2).1) :=
  c1_cross_store_resume_rejected.2 _ _ _ (Store.default_ 0).1 _ none rfl
    (by decide)

/-- C2: a suspended runtime whose resume returned Return, and an incomplete
module whose resume returned the finished instance, answer every further
resume with InvalidResume (their body was taken and never put back). -/
theorem c2_resume_after_finish_invalid :
    (∀ (execResume : ExecResumeFn) (self : SuspendedRuntime) (store : Store)
        (arg : ResumeArgument) (stack : Stack) (self2 : SuspendedRuntime)
        (store2 : Store),
      SuspendedRuntime.resume execResume self store arg =
        (.ok (.Return stack), self2, store2) →
      ∀ (er2 : ExecResumeFn) (store3 : Store) (arg2 : ResumeArgument),
        SuspendedRuntime.resume er2 self2 store3 arg2 =
          (.error .InvalidResume, self2, store3))
    ∧ (∀ (execResume : ExecResumeFn) (hostResume : HostResumeFn)
        (self : IncompleteModule) (store : Store) (arg : ResumeArgument)
        (inst : ModuleInstance) (self2 : IncompleteModule) (store2 : Store),
      IncompleteModule.resume execResume hostResume self store arg =
        (.ok (.Return inst), self2, store2) →
      ∀ (er2 : ExecResumeFn) (hr2 : HostResumeFn) (store3 : Store)
        (arg2 : ResumeArgument),
        IncompleteModule.resume er2 hr2 self2 store3 arg2 =
          (.error .InvalidResume, self2, store3)) := by
  constructor
  · intro er self store arg stack self2 store2 h er2 store3 arg2
    obtain ⟨b⟩ := self
    have h2 : self2 = ⟨none⟩ := by
      cases b with
      | none => simp [SuspendedRuntime.resume] at h
      | some p =>
        obtain ⟨body, stack0⟩ := p
        unfold SuspendedRuntime.resume at h
        simp only at h
        rcases hres : er body stack0 store arg with ⟨r, b2, s2, st2⟩
        rw [hres] at h
        cases r with
        | error e => simp at h
        | ok o =>
          cases o with
          | Return => simp at h; exact h.2.1.symm
          | Suspended rr => simp at h
    rw [h2]
    rfl
  · intro er hr self store arg inst self2 store2 h er2 hr2 store3 arg2
    obtain ⟨b⟩ := self
    have h2 : self2 = ⟨none⟩ := by
      cases b with
      | none => simp [IncompleteModule.resume] at h
      | some body =>
        unfold IncompleteModule.resume at h
        simp only at h
        rcases hres : SuspendedFunc.resume er hr body.func store arg
          with ⟨r, f2, st2⟩
        rw [hres] at h
        cases r with
        | error e => simp at h
        | ok o =>
          cases o with
          | Return vals => simp at h; exact h.2.1.symm
          | Suspended rr => simp at h
    rw [h2]
    rfl

/-- C2 witness: a runtime resumed to completion by a trivially returning
executor rejects the next resume with InvalidResume. -/
theorem c2_resume_after_finish_invalid_witness :
    SuspendedRuntime.resume (fun b s st _ => (.error .InvalidResume, b, s, st))
      (SuspendedRuntime.mk none) (Store.default_ 0).1 none =
      (.error .InvalidResume, SuspendedRuntime.mk none, (Store.default_ 0).1) :=
  c2_resume_after_finish_invalid.1
    (fun b s st _ => (.ok .Return, b, s, st))
    ⟨some (⟨none, ⟨0, [], []⟩, ⟨0, [], 0, 0⟩⟩, ⟨[], [], []⟩)⟩
    (Store.default_ 0).1 none ⟨[], [], []⟩ ⟨none⟩ (Store.default_ 0).1 rfl
    _ _ none

/-- C9: when the (abstracted, spec-modelled) inner resume fails without
touching its state, the put-back logic restores the suspended handle to
exactly its prior state before surfacing the error: the runtime keeps its
body, the incomplete module keeps its instance and suspended start function,
so the next resume is not InvalidResume and proceeds from the same
suspension point. -/
theorem c9_error_puts_state_back :
    (∀ (execResume : ExecResumeFn) (body : SuspendedRuntimeBody)
        (stack : Stack) (store : Store) (arg : ResumeArgument) (e : Error)
        (store2 : Store),
      execResume body stack store arg = (.error e, body, stack, store2) →
      SuspendedRuntime.resume execResume ⟨some (body, stack)⟩ store arg =
        (.error e, ⟨some (body, stack)⟩, store2))
    ∧ (∀ (execResume : ExecResumeFn) (hostResume : HostResumeFn)
        (inst : ModuleInstance) (f : SuspendedFunc) (store : Store)
        (arg : ResumeArgument) (e : Error) (store2 : Store),
      SuspendedFunc.resume execResume hostResume f store arg =
        (.error e, f, store2) →
      IncompleteModule.resume execResume hostResume ⟨some ⟨inst, f⟩⟩ store arg =
        (.error e, ⟨some ⟨inst, f⟩⟩, store2)) := by
  constructor
  · intro er body stack store arg e store2 h
    unfold SuspendedRuntime.resume
    simp only
    rw [h]
  · intro er hr inst f store arg e store2 h
    unfold IncompleteModule.resume
    simp only
    rw [h]

/-- C9 witness: an executor failing with InvalidResumeArgument and leaving
its state alone; the runtime keeps its suspended body. -/
theorem c9_error_puts_state_back_witness :
    SuspendedRuntime.resume
      (fun b s st _ => (.error .InvalidResumeArgument, b, s, st))
      ⟨some (⟨none, ⟨0, [], []⟩, ⟨0, [], 0, 0⟩⟩, ⟨[], [], []⟩)⟩
      (Store.default_ 0).1 none =
      (.error .InvalidResumeArgument,
       ⟨some (⟨none, ⟨0, [], []⟩, ⟨0, [], 0, 0⟩⟩, ⟨[], [], []⟩)⟩,
       (Store.default_ 0).1) :=
  c9_error_puts_state_back.1 _ _ _ _ none .InvalidResumeArgument _ rfl

/-- Helper: when every declared memory is 32-bit, init_memories adds them
all in order and returns their consecutive store addresses. -/
theorem initMemoriesLoop_all_i32 (idx : Nat) :
    ∀ (mems : List MemoryType) (store : Store),
      (∀ m ∈ mems, m.arch = .I32) →
      initMemoriesLoop idx store mems =
        (.ok (List.range' store.data.memories.length mems.length),
         { store with data := { globals := store.data.globals,
                                memories := store.data.memories ++
                                  mems.map (fun m => MemoryInstance.new m idx) } })
  | [], store => by
    intro _
    simp [initMemoriesLoop]
  | m :: rest, store => by
    intro h
    have hm : m.arch = .I32 := h m (by simp)
    have hne : ¬ (m.arch = MemoryArch.I64) := by simp [hm]
    unfold initMemoriesLoop
    rw [if_neg hne]
    rw [initMemoriesLoop_all_i32 idx rest _ (fun x hx => h x (by simp [hx]))]
    simp [List.range'_succ, List.append_assoc]

/-- Helper: a 64-bit memory anywhere in the declared list makes
init_memories fail with the UnsupportedFeature error. -/
theorem initMemoriesLoop_err_of_i64 (idx : Nat) :
    ∀ (mems : List MemoryType) (store : Store),
      (∃ m ∈ mems, m.arch = .I64) →
      (initMemoriesLoop idx store mems).1 =
        .error (.UnsupportedFeature "64-bit memories")
  | [], store => by
    intro h
    simp at h
  | m :: rest, store => by
    intro h
    by_cases hm : m.arch = MemoryArch.I64
    · unfold initMemoriesLoop
      rw [if_pos hm]
    · have hrest : ∃ x ∈ rest, x.arch = MemoryArch.I64 := by
        obtain ⟨x, hx, hxa⟩ := h
        rcases List.mem_cons.mp hx with h1 | h2
        · exact absurd (h1 ▸ hxa) hm
        · exact ⟨x, h2, hxa⟩
      unfold initMemoriesLoop
      rw [if_neg hm]
      have := initMemoriesLoop_err_of_i64 idx rest
        { store with data := { globals := store.data.globals,
                               memories := store.data.memories ++ [MemoryInstance.new m idx] } }
        hrest
      rcases hrec : initMemoriesLoop idx
        { store with data := { globals := store.data.globals,
                               memories := store.data.memories ++ [MemoryInstance.new m idx] } }
        rest with ⟨r, s3⟩
      rw [hrec] at this
      cases r with
      | error e =>
        simp at this
        simp [this]
      | ok addrs => simp at this

/-- Helper: init_memories never places a 64-bit memory instance in the
store; every instance present afterwards was already there or is 32-bit. -/
theorem initMemoriesLoop_no_i64_added (idx : Nat) :
    ∀ (mems : List MemoryType) (store : Store) (inst : MemoryInstance),
      inst ∈ (initMemoriesLoop idx store mems).2.data.memories →
      inst ∈ store.data.memories ∨ inst.kind.arch = .I32
  | [], store, inst => by
    intro h
    exact Or.inl h
  | m :: rest, store, inst => by
    intro h
    by_cases hm : m.arch = MemoryArch.I64
    · unfold initMemoriesLoop at h
      rw [if_pos hm] at h
      exact Or.inl h
    · have harch : m.arch = MemoryArch.I32 := by
        cases harch2 : m.arch
        · rfl
        · exact absurd harch2 hm
      unfold initMemoriesLoop at h
      rw [if_neg hm] at h
      have h2 : inst ∈ (initMemoriesLoop idx
          { store with data := { globals := store.data.globals,
                                 memories := store.data.memories ++ [MemoryInstance.new m idx] } }
          rest).2.data.memories := by
        rcases hrec : initMemoriesLoop idx
          { store with data := { globals := store.data.globals,
                                 memories := store.data.memories ++ [MemoryInstance.new m idx] } }
          rest with ⟨r, s3⟩
        rw [hrec] at h
        cases r with
        | error e => simpa using h
        | ok addrs => simpa using h
      rcases initMemoriesLoop_no_i64_added idx rest _ inst h2 with h3 | h3
      · rcases List.mem_append.mp h3 with h4 | h4
        · exact Or.inl h4
        · right
          have : inst = MemoryInstance.new m idx := by simpa using h4
          rw [this]
          exact harch
      · exact Or.inr h3

/-- C8: registering or instantiating a 64-bit memory always fails with
UnsupportedFeature("64-bit memories") and never creates a memory instance
for it (instances present afterwards were already there or are 32-bit),
while 32-bit memories are accepted and added at consecutive addresses. -/
theorem c8_memory_64bit_rejected :
    (∀ (store : Store) (mem : MemoryType) (idx : Nat), mem.arch = .I64 →
      Store.add_mem store mem idx =
        (.error (.UnsupportedFeature "64-bit memories"), store))
    ∧ (∀ (store : Store) (mem : MemoryType) (idx : Nat), mem.arch = .I32 →
      Store.add_mem store mem idx =
        (.ok store.data.memories.length,
         { store with data := { globals := store.data.globals,
                                memories := store.data.memories ++ [MemoryInstance.new mem idx] } }))
    ∧ (∀ (store : Store) (mems : List MemoryType) (idx : Nat),
      (∃ m ∈ mems, m.arch = .I64) →
      (Store.init_memories store mems idx).1 =
        .error (.UnsupportedFeature "64-bit memories")
      ∧ ∀ inst ∈ (Store.init_memories store mems idx).2.data.memories,
          inst ∈ store.data.memories ∨ inst.kind.arch = .I32)
    ∧ (∀ (store : Store) (mems : List MemoryType) (idx : Nat),
      (∀ m ∈ mems, m.arch = .I32) →
      Store.init_memories store mems idx =
        (.ok (List.range' store.data.memories.length mems.length),
         { store with data := { globals := store.data.globals,
                                memories := store.data.memories ++
                                  mems.map (fun m => MemoryInstance.new m idx) } })) := by
  refine ⟨?_, ?_, ?_, ?_⟩
  · intro store mem idx h
    simp [Store.add_mem, h]
  · intro store mem idx h
    have hne : ¬ (mem.arch = MemoryArch.I64) := by simp [h]
    simp [Store.add_mem, hne]
  · intro store mems idx h
    exact ⟨initMemoriesLoop_err_of_i64 idx mems store h,
      fun inst hin => initMemoriesLoop_no_i64_added idx mems store inst hin⟩
  · intro store mems idx h
    exact initMemoriesLoop_all_i32 idx mems store h

/-- C8 witness: a 64-bit memory is rejected by add_mem, leaving the fresh
store untouched; a 32-bit one is accepted. -/
theorem c8_memory_64bit_rejected_witness :
    Store.add_mem (Store.default_ 0).1
        { arch := .I64, initial := 1, max_pages := none } 0 =
      (.error (.UnsupportedFeature "64-bit memories"), (Store.default_ 0).1) :=
  c8_memory_64bit_rejected.1 _ _ 0 rfl

/-- Iterated Store::add_instance, used to state that a registered module
instance stays reachable under its id for the rest of the store lifetime
(module_instances is only ever grown, by add_instance). -/
def Store.add_instances (store : Store) :
    List ModuleInstance → Option Store
  | [] => some store
  | i :: rest =>
    match Store.add_instance store i with
    | none => none
    | some s2 => Store.add_instances s2 rest

/-- Helper: facts about one successful add_instance call. -/
theorem add_instance_some (store : Store) (inst : ModuleInstance)
    (store2 : Store) (h : Store.add_instance store inst = some store2) :
    inst.id = store.module_instances.length
    ∧ store2 = { store with
        module_instances := store.module_instances ++ [inst] } := by
  by_cases hid : inst.id = store.module_instances.length
  · refine ⟨hid, ?_⟩
    rw [Store.add_instance, if_pos hid] at h
    exact (Option.some.injEq _ _ ▸ h).symm
  · rw [Store.add_instance, if_neg hid] at h
    simp at h

/-- Helper: the registry only grows, so any sequence of add_instance calls
keeps every already-registered id resolving to the same instance. -/
theorem add_instances_preserves :
    ∀ (insts : List ModuleInstance) (store store2 : Store),
      Store.add_instances store insts = some store2 →
      ∀ addr, addr < store.module_instances.length →
        Store.get_module_instance store2 addr =
          Store.get_module_instance store addr
  | [], store, store2 => by
    intro h addr _
    rw [Store.add_instances] at h
    rw [Option.some.injEq] at h
    rw [h]
  | i :: rest, store, store2 => by
    intro h addr haddr
    rw [Store.add_instances] at h
    rcases hstep : Store.add_instance store i with _ | s2
    · rw [hstep] at h
      simp at h
    · rw [hstep] at h
      simp only at h
      obtain ⟨hid, hs2⟩ := add_instance_some store i s2 hstep
      have haddr2 : addr < s2.module_instances.length := by
        rw [hs2]
        simp only [List.length_append, List.length_cons, List.length_nil]
        omega
      have h1 := add_instances_preserves rest s2 store2 h addr haddr2
      rw [h1, hs2, Store.get_module_instance, Store.get_module_instance]
      simp only
      exact List.getElem?_append_left haddr

/-- C10: add_instance succeeds exactly when the id of the instance equals
the current registry length (the next consecutive id); the new instance is
then found under its id, the next id to assign is one larger (never
reusing), ids never assigned resolve to none, and every already-registered
id keeps resolving to the same instance across any later sequence of
add_instance calls. -/
theorem c10_module_instance_registry :
    (∀ (store : Store) (inst : ModuleInstance),
      (Store.add_instance store inst).isSome ↔
        inst.id = Store.next_module_instance_idx store)
    ∧ (∀ (store : Store) (inst : ModuleInstance) (store2 : Store),
      Store.add_instance store inst = some store2 →
      Store.get_module_instance store2 inst.id = some inst
      ∧ Store.next_module_instance_idx store2 = inst.id + 1
      ∧ (∀ addr, store2.module_instances.length ≤ addr →
          Store.get_module_instance store2 addr = none))
    ∧ (∀ (store : Store) (insts : List ModuleInstance) (store2 : Store),
      Store.add_instances store insts = some store2 →
      ∀ addr, addr < store.module_instances.length →
        Store.get_module_instance store2 addr =
          Store.get_module_instance store addr)
    ∧ (∀ (store : Store) (addr : Nat),
      store.module_instances.length ≤ addr →
      Store.get_module_instance store addr = none) := by
  refine ⟨?_, ?_, ?_, ?_⟩
  · intro store inst
    by_cases hid : inst.id = store.module_instances.length <;>
      simp [Store.add_instance, Store.next_module_instance_idx, hid]
  · intro store inst store2 h
    obtain ⟨hid, hs2⟩ := add_instance_some store inst store2 h
    refine ⟨?_, ?_, ?_⟩
    · rw [hs2, Store.get_module_instance]
      simp only
      rw [hid]
      exact List.getElem?_concat_length _ _
    · rw [hs2, Store.next_module_instance_idx]
      simp [hid]
    · intro addr haddr
      rw [hs2] at haddr ⊢
      rw [Store.get_module_instance]
      simp only at haddr ⊢
      exact List.getElem?_eq_none haddr
  · intro store insts store2 h addr haddr
    exact add_instances_preserves insts store store2 h addr haddr
  · intro store addr h
    exact List.getElem?_eq_none h

/-- C10 witness: a freshly created store accepts the instance with id 0 and
then serves it back under id 0. -/
theorem c10_module_instance_registry_witness :
    Store.get_module_instance
      { (Store.default_ 0).1 with
        module_instances := [ModuleInstance.mk 0 [] []] }
      (ModuleInstance.mk 0 [] []).id = some (ModuleInstance.mk 0 [] []) :=
  (c10_module_instance_registry.2.1 (Store.default_ 0).1
    (ModuleInstance.mk 0 [] [])
    { (Store.default_ 0).1 with
      module_instances := [ModuleInstance.mk 0 [] []] } rfl).1

/-- The C5 counterexample store: a single global that is mutable and owned
by module instance 0 itself (so not imported), holding the i32 value 7. -/
def c5Store : Store :=
  { id := 0, module_instances := [],
    data := { globals := [{ ty := { ty := .I32, mutable := true },
                            value := .Value32 7, owner := 0 }],
              memories := [] } }

/-- C5 counterexample: the claim restricts global.get to imported immutable
globals, but Store::eval_const performs no mutability or import check at
all: a global.get of a mutable global defined by the instantiating module
itself succeeds and yields the value. -/
theorem c5_eval_const_counterexample :
    Store.eval_const c5Store (.GlobalGet 0) [0] [] = some (.ok (.Value32 7))
    ∧ (c5Store.data.globals.map fun g => g.ty.mutable) = [true]
    ∧ (c5Store.data.globals.map fun g => g.owner) = [0] :=
  ⟨rfl, rfl, rfl⟩

/-- C5 (amended): eval_const succeeds exactly on the numeric consts
(yielding the raw value), ref.null (both reference kinds, yielding the null
reference), ref.func with an in-range module-local index (yielding the
translated absolute store address), and global.get of any module-local
global index whose translation resolves in the store (no mutability check,
no import check), yielding the current value of that global; an out-of-range
ref.func or global.get index is an error, a translated global address
missing from the store is a panic, and every other instruction is an
error. -/
theorem c5_eval_const_amended :
    (∀ (store : Store) (ga fa : List Nat) (b : Nat),
      Store.eval_const store (.I32Const b) ga fa = some (.ok (.Value32 b))
      ∧ Store.eval_const store (.I64Const b) ga fa = some (.ok (.Value64 b))
      ∧ Store.eval_const store (.F32Const b) ga fa = some (.ok (.Value32 b))
      ∧ Store.eval_const store (.F64Const b) ga fa = some (.ok (.Value64 b)))
    ∧ (∀ (store : Store) (ga fa : List Nat),
      Store.eval_const store (.RefFunc none) ga fa =
        some (.ok (.ValueRef none))
      ∧ Store.eval_const store (.RefExt none) ga fa =
        some (.ok (.ValueRef none)))
    ∧ (∀ (store : Store) (ga fa : List Nat) (idx a : Nat),
      fa[idx]? = some a →
      Store.eval_const store (.RefFunc (some idx)) ga fa =
        some (.ok (.ValueRef (some a))))
    ∧ (∀ (store : Store) (ga fa : List Nat) (idx : Nat),
      fa[idx]? = none →
      Store.eval_const store (.RefFunc (some idx)) ga fa =
        some (.error (.Other ("function " ++ toString idx ++
          " not found. This should have been caught by the validator"))))
    ∧ (∀ (store : Store) (ga fa : List Nat) (idx a2 : Nat)
        (g : GlobalInstance),
      ga[idx]? = some a2 → store.data.globals[a2]? = some g →
      Store.eval_const store (.GlobalGet idx) ga fa = some (.ok g.value))
    ∧ (∀ (store : Store) (ga fa : List Nat) (idx : Nat),
      ga[idx]? = none →
      Store.eval_const store (.GlobalGet idx) ga fa =
        some (.error (.Other ("global " ++ toString idx ++
          " not found. This should have been caught by the validator"))))
    ∧ (∀ (store : Store) (ga fa : List Nat) (idx a2 : Nat),
      ga[idx]? = some a2 → store.data.globals[a2]? = none →
      Store.eval_const store (.GlobalGet idx) ga fa = none)
    ∧ (∀ (store : Store) (ga fa : List Nat) (n : Nat) (x : Nat),
      Store.eval_const store (.Extended n) ga fa =
        some (.error (.Other "unsupported const instruction"))
      ∧ Store.eval_const store (.RefExt (some x)) ga fa =
        some (.error (.Other "unsupported const instruction"))) := by
  refine ⟨?_, ?_, ?_, ?_, ?_, ?_, ?_, ?_⟩
  · intro store ga fa b
    exact ⟨rfl, rfl, rfl, rfl⟩
  · intro store ga fa
    exact ⟨rfl, rfl⟩
  · intro store ga fa idx a h
    simp [Store.eval_const, h]
  · intro store ga fa idx h
    simp [Store.eval_const, h]
  · intro store ga fa idx a2 g h1 h2
    simp [Store.eval_const, h1, h2]
  · intro store ga fa idx h
    simp [Store.eval_const, h]
  · intro store ga fa idx a2 h1 h2
    simp [Store.eval_const, h1, h2]
  · intro store ga fa n x
    exact ⟨rfl, rfl⟩

/-- C5 witness: the amended characterization applied to the counterexample
store: a mutable own global is read, and a ref.func index is translated. -/
theorem c5_eval_const_amended_witness :
    Store.eval_const c5Store (.GlobalGet 0) [0] [] = some (.ok (.Value32 7))
    ∧ Store.eval_const c5Store (.RefFunc (some 0)) [] [5] =
      some (.ok (.ValueRef (some 5))) :=
  ⟨c5_eval_const_amended.2.2.2.2.1 c5Store [0] [] 0 0
      { ty := { ty := .I32, mutable := true }, value := .Value32 7,
        owner := 0 } rfl rfl,
   c5_eval_const_amended.2.2.1 c5Store [] [5] 0 5 rfl⟩

end TinyWasm
